import Mathlib

/-!
Verification of the change-detection and subscription-filtered dispatch
engine of the Epic Games status monitor (Cloudflare Worker, TypeScript).

The embedding below is a shallow model of the worker sources:
  * `worker/src/types.ts`       — data model (`StatusEvent`, `ParsedEvent`,
    `BotState`, `UserSubscription`);
  * `worker/src/epic-status.ts` — `getFingerprint`, `parseEvent`,
    `fetchFromUrl`;
  * `worker/src/subscriptions.ts` — `IMPACT_LEVELS`,
    `eventMatchesSubscription`;
  * the worker entry point — `pollAndNotify`, `loadState`, `saveState`.

JavaScript data structures are modelled as follows: arrays become `List`,
plain objects used as string maps (`state.fingerprints`) become ordered
association lists with JS-object update semantics (`setEntry` updates an
existing key in place, otherwise appends), `Set.has`/`Array.includes`
become list membership, `Array.slice(-n)` becomes `sliceLast`,
`String.prototype.toLowerCase` becomes `lowerStr`,
`String.prototype.includes` becomes `strIncludes`, and
`Array.prototype.indexOf` (over the impact-level table) becomes
`listIndexOf`, returning `-1 : Int` when absent.  External effects
(Telegram delivery, console logging, the KV store, the clock) do not feed
back into the state computation; the clock is passed in as the `now`
argument, and KV contents as an `Option BotState`.
-/

/-- `EventType` from `types.ts` / the `eventType` tag of `parseEvent`. -/
inductive EventType where
  | incident
  | maintenance
deriving DecidableEq, Repr

/-- `StatusUpdate` from `types.ts`. -/
structure StatusUpdate where
  id : String
  status : String
  body : String
  created_at : String
deriving DecidableEq, Repr

/-- `Component` from `types.ts`. -/
structure Component where
  id : String
  name : String
  status : String
deriving DecidableEq, Repr

/-- `StatusEvent` from `types.ts`: a raw feed record. -/
structure StatusEvent where
  id : String
  name : String
  status : String
  impact : String
  shortlink : String
  created_at : String
  updated_at : String
  incident_updates : List StatusUpdate
  components : List Component
  scheduled_for : Option String
  scheduled_until : Option String
deriving DecidableEq, Repr

/-- `ParsedEvent` from `types.ts`: a `StatusEvent` extended with its
classification tag and derived fingerprint. -/
structure ParsedEvent where
  id : String
  name : String
  status : String
  impact : String
  shortlink : String
  created_at : String
  updated_at : String
  incident_updates : List StatusUpdate
  components : List Component
  scheduled_for : Option String
  scheduled_until : Option String
  eventType : EventType
  fingerprint : String
deriving DecidableEq, Repr

/-- `BotState` from `types.ts`.  `fingerprints` is a JS object keyed by
event id, modelled as an ordered association list. -/
structure BotState where
  seenIds : List String
  fingerprints : List (String × String)
  lastChecked : String
deriving DecidableEq, Repr

/-- `UserSubscription` from `types.ts`, with the runtime representation
used by `subscriptions.ts`/`commands.ts`: `eventTypes` is the sentinel
string `"all"`, `"incidents"` or `"maintenance"`, and `minImpact` is one of
the four impact-level strings. -/
structure UserSubscription where
  chatId : Int
  services : List String
  minImpact : String
  eventTypes : String
  createdAt : String
  updatedAt : String
deriving DecidableEq, Repr

/-- JS object read `obj[key]`: first binding of the key, if any. -/
def getEntry : List (String × String) → String → Option String
  | [], _ => none
  | (k, v) :: t, a => if k = a then some v else getEntry t a

/-- JS object write `obj[key] = value`: update an existing key in place,
otherwise append the new binding. -/
def setEntry : List (String × String) → String → String → List (String × String)
  | [], a, v => [(a, v)]
  | (k, w) :: t, a, v => if k = a then (a, v) :: t else (k, w) :: setEntry t a v

/-- JS `Array.prototype.slice(-n)`: the last `min n l.length` elements. -/
def sliceLast (n : Nat) (l : List α) : List α :=
  l.drop (l.length - n)

/-- Character-level prefix test (`List.isPrefixOf` with decidable
equality), basis of the JS substring test. -/
def startsWithChars : List Char → List Char → Bool
  | [], _ => true
  | _ :: _, [] => false
  | a :: as, b :: bs => a = b && startsWithChars as bs

/-- Character-level substring search. -/
def charsContains (sub : List Char) : List Char → Bool
  | [] => sub.isEmpty
  | h :: t => startsWithChars sub (h :: t) || charsContains sub t

/-- JS `hay.includes(sub)`: substring containment. -/
def strIncludes (hay sub : String) : Bool :=
  charsContains sub.data hay.data

/-- JS `String.prototype.toLowerCase` (character-wise lowering). -/
def lowerStr (s : String) : String :=
  ⟨s.data.map Char.toLower⟩

/-- JS `Array.prototype.indexOf` over a list of strings, starting the
count at `i`; `-1` when the element is absent. -/
def listIndexOfAux : List String → String → Int → Int
  | [], _, _ => -1
  | x :: xs, a, i => if x = a then i else listIndexOfAux xs a (i + 1)

/-- JS `l.indexOf(a)`. -/
def listIndexOf (l : List String) (a : String) : Int :=
  listIndexOfAux l a 0

/-- `IMPACT_LEVELS` from `subscriptions.ts`. -/
def IMPACT_LEVELS : List String :=
  ["none", "minor", "major", "critical"]

/-- The lowercased haystack built in the services branch of
`eventMatchesSubscription`: event name, a space, and the component names
joined by spaces (`join(' ') || ''` on no components yields the empty
string, leaving a trailing space after the name). -/
def eventText (event : ParsedEvent) : String :=
  lowerStr (event.name ++ " " ++ String.intercalate " " (event.components.map (·.name)))

/-- The services test of `eventMatchesSubscription`: some configured
service, lowercased, occurs in the haystack. -/
def serviceFilterPasses (event : ParsedEvent) (sub : UserSubscription) : Bool :=
  sub.services.any (fun service => strIncludes (eventText event) (lowerStr service))

/-- `eventMatchesSubscription` from `subscriptions.ts`: sequential checks,
each returning `false` on failure — event-type filter, impact floor (for
incidents with a non-`"none"` floor, comparing `IMPACT_LEVELS` indices),
then the services substring filter (skipped when `services` is empty). -/
def eventMatchesSubscription (event : ParsedEvent) (sub : UserSubscription) : Bool :=
  if sub.eventTypes = "incidents" ∧ event.eventType = .maintenance then false
  else if sub.eventTypes = "maintenance" ∧ event.eventType = .incident then false
  else if event.eventType = .incident ∧ sub.minImpact ≠ "none" ∧
      listIndexOf IMPACT_LEVELS event.impact < listIndexOf IMPACT_LEVELS sub.minImpact then false
  else if sub.services ≠ [] ∧ serviceFilterPasses event sub = false then false
  else true

/-- `getFingerprint`'s `event.incident_updates?.[0]?.id || ''`: the id of
the first update, or `""` when there are no updates (an empty id string
also yields `""`, which coincides with returning it unchanged). -/
def latestUpdateId (event : StatusEvent) : String :=
  match event.incident_updates with
  | [] => ""
  | u :: _ => u.id

/-- `getFingerprint` from `epic-status.ts`: `` `${event.status}:${latestUpdateId}` ``. -/
def getFingerprint (event : StatusEvent) : String :=
  event.status ++ ":" ++ latestUpdateId event

/-- `parseEvent` from `epic-status.ts`: spread the raw record and attach
the classification tag and fingerprint. -/
def parseEvent (data : StatusEvent) (eventType : EventType) : ParsedEvent :=
  { id := data.id, name := data.name, status := data.status, impact := data.impact
    shortlink := data.shortlink, created_at := data.created_at, updated_at := data.updated_at
    incident_updates := data.incident_updates, components := data.components
    scheduled_for := data.scheduled_for, scheduled_until := data.scheduled_until
    eventType := eventType, fingerprint := getFingerprint data }

/-- Outcome of one feed sub-fetch, as observed by the `try` block of
`fetchFromUrl`: the HTTP round-trip and JSON parse succeeded and the
response body's key lookup `data[key]` yielded `body` (`none` when the key
is missing), or the response arrived non-OK with some status, or the fetch
or parse threw. -/
inductive FetchOutcome where
  | ok (body : Option (List StatusEvent))
  | httpError (status : Nat)
  | thrown
deriving DecidableEq, Repr

/-- The `try` block of `fetchFromUrl` from `epic-status.ts`: a thrown
error escapes as `Except.error`; a non-OK response logs and returns `[]`;
otherwise the events under the key (`data[key] || []`) are parsed. -/
def fetchFromUrlTry (eventType : EventType) : FetchOutcome → Except String (List ParsedEvent)
  | .thrown => .error "fetch error"
  | .httpError _ => .ok []
  | .ok body => .ok ((body.getD []).map (parseEvent · eventType))

/-- `fetchFromUrl` from `epic-status.ts`: the `try` block with its `catch`
handler, which logs and returns `[]`. -/
def fetchFromUrl (eventType : EventType) (o : FetchOutcome) : List ParsedEvent :=
  match fetchFromUrlTry eventType o with
  | .ok events => events
  | .error _ => []

/-- The three-way classification of §4.2 of the worker's design: the
`isNew` / `isUpdated` tests of the `pollAndNotify` loop. -/
inductive Classification where
  | NEW
  | UPDATED
  | UNCHANGED
deriving DecidableEq, Repr

/-- The per-event classification computed at the top of the
`pollAndNotify` loop: `isNew = !state.seenIds.includes(event.id)`,
`isUpdated = !isNew && state.fingerprints[event.id] !== event.fingerprint`
(a missing stored fingerprint compares unequal to any string, as JS
`undefined !== s`). -/
def classify (state : BotState) (event : ParsedEvent) : Classification :=
  if event.id ∈ state.seenIds then
    if getEntry state.fingerprints event.id ≠ some event.fingerprint then .UPDATED
    else .UNCHANGED
  else .NEW

/-- The state mutation of one iteration of the `pollAndNotify` loop:
unchanged events are skipped (`continue`); a new event's id is pushed onto
`seenIds`; new and updated events get their fingerprint recorded. -/
def classifyStep (state : BotState) (event : ParsedEvent) : BotState :=
  match classify state event with
  | .UNCHANGED => state
  | .NEW =>
      { state with
        seenIds := state.seenIds ++ [event.id]
        fingerprints := setEntry state.fingerprints event.id event.fingerprint }
  | .UPDATED =>
      { state with
        fingerprints := setEntry state.fingerprints event.id event.fingerprint }

/-- `saveState` from the worker entry point: ids present in the current
snapshot are kept (in stored order), followed by the last 50 stored ids
absent from the snapshot (`slice(-50)`); `fingerprints` is pruned to keys
in the retained id list; `lastChecked` is set from the clock. -/
def saveState (state : BotState) (currentEvents : List ParsedEvent) (now : String) : BotState :=
  let currentIds := currentEvents.map (·.id)
  let relevantIds := state.seenIds.filter (fun id => id ∈ currentIds)
  let historicalIds := sliceLast 50 (state.seenIds.filter (fun id => id ∉ currentIds))
  let seenIds := relevantIds ++ historicalIds
  { seenIds := seenIds
    fingerprints := state.fingerprints.filter (fun p => p.1 ∈ seenIds)
    lastChecked := now }

/-- `loadState` from the worker entry point: the stored state when the KV
key exists, otherwise the empty default stamped with the clock. -/
def loadState (data : Option BotState) (now : String) : BotState :=
  match data with
  | some state => state
  | none => { seenIds := [], fingerprints := [], lastChecked := now }

/-- The state computation of `pollAndNotify` from the worker entry point.
With zero subscribers it saves the loaded state immediately and returns;
otherwise it folds the classification loop over the events and then saves.
Telegram delivery and logging are external effects with no influence on
the resulting state, so subscriber identity beyond the count is dropped. -/
def pollAndNotify (state : BotState) (events : List ParsedEvent)
    (subscriberIds : List Int) (now : String) : BotState :=
  if subscriberIds.length = 0 then saveState state events now
  else saveState (events.foldl classifyStep state) events now

/-- The `fingerprints`-domain invariant of the change state (§3 of the
design): every recorded fingerprint key is a seen id. -/
def stateInv (state : BotState) : Prop :=
  ∀ p ∈ state.fingerprints, p.1 ∈ state.seenIds


/-! ### Concrete instances used by counterexamples and witnesses -/

/-- A minimal incident-kind `ParsedEvent` with no updates and no affected
components; its `fingerprint` field equals `getFingerprint` of the
underlying raw record (`status ++ ":" ++ ""`). -/
def simpleEvent (id status : String) : ParsedEvent :=
  { id := id, name := id, status := status, impact := "none", shortlink := "",
    created_at := "", updated_at := "", incident_updates := [], components := [],
    scheduled_for := none, scheduled_until := none, eventType := .incident,
    fingerprint := status ++ ":" }

/-- Scenario C subscription: `serviceFilters = ["fortnite"]`, no other
constraints. -/
def scenarioCSub : UserSubscription :=
  { chatId := 1, services := ["fortnite"], minImpact := "none", eventTypes := "all",
    createdAt := "", updatedAt := "" }

/-- Scenario C event: title `"Fortnite Login Issues"`, zero affected
components. -/
def scenarioCEvent : ParsedEvent :=
  { simpleEvent "e1" "investigating" with name := "Fortnite Login Issues" }

/-- Scenario D prior state: `seenIds = {"a"}`,
`fingerprints = {"a": "investigating:1"}`. -/
def scenarioDState : BotState :=
  { seenIds := ["a"], fingerprints := [("a", "investigating:1")], lastChecked := "" }

/-- Scenario D incoming event: id `"a"`, status `"resolved"`, latest
update id still `"1"`. -/
def scenarioDEvent : ParsedEvent :=
  { simpleEvent "a" "resolved" with
    incident_updates := [⟨"1", "resolved", "", ""⟩], fingerprint := "resolved:1" }

/-- Raw feed record for id `"a"` while investigating, latest update `"1"`. -/
def rawInvestigatingA : StatusEvent :=
  { id := "a", name := "A", status := "investigating", impact := "minor",
    shortlink := "", created_at := "", updated_at := "",
    incident_updates := [⟨"1", "investigating", "", ""⟩], components := [],
    scheduled_for := none, scheduled_until := none }

/-- The same remote event after resolution: status changed, same latest
update id. -/
def rawResolvedA : StatusEvent :=
  { rawInvestigatingA with
    status := "resolved", incident_updates := [⟨"1", "resolved", "", ""⟩] }

/-- The same remote event with a fresh update posted: same status,
different latest update id. -/
def rawSecondUpdateA : StatusEvent :=
  { rawInvestigatingA with incident_updates := [⟨"2", "investigating", "", ""⟩] }

/-- A raw record with an empty update sequence. -/
def rawNoUpdatesA : StatusEvent :=
  { rawInvestigatingA with incident_updates := [] }

/-- A copy of `rawInvestigatingA` differing only in a field irrelevant to
the fingerprint. -/
def rawRenamedA : StatusEvent :=
  { rawInvestigatingA with name := "A (renamed)" }

/-- A maintenance-kind event for the matcher counter-checks. -/
def maintenanceEvent : ParsedEvent :=
  { simpleEvent "m1" "scheduled" with eventType := .maintenance }

/-- A subscription restricted to incidents only. -/
def incidentsOnlySub : UserSubscription :=
  { scenarioCSub with services := [], eventTypes := "incidents" }

/-- An incident with an impact string outside the known table. -/
def unknownImpactEvent : ParsedEvent :=
  { simpleEvent "u1" "investigating" with impact := "catastrophic" }

/-- A subscription with impact floor `"major"` and no other constraints. -/
def majorFloorSub : UserSubscription :=
  { scenarioCSub with services := [], minImpact := "major" }

/-- One poll cycle with a single subscriber (so the classification loop
runs), at a fixed clock value. -/
def pollCycle (state : BotState) (evs : List ParsedEvent) : BotState :=
  pollAndNotify state evs [1] "t"

/-- First snapshot of the retention trace: 51 events `a, b0, …, b49`. -/
def traceSnapshot1 : List ParsedEvent :=
  simpleEvent "a" "ok" :: (List.range 50).map (fun i => simpleEvent ("b" ++ toString i) "ok")

/-- Second snapshot: only `a` remains; `b0 … b49` disappear here. -/
def traceSnapshot2 : List ParsedEvent := [simpleEvent "a" "ok"]

/-- Third snapshot: empty; `a` disappears here, later than every `bᵢ`. -/
def traceSnapshot3 : List ParsedEvent := []

/-- State after the first cycle of the retention trace. -/
def traceState1 : BotState :=
  pollCycle { seenIds := [], fingerprints := [], lastChecked := "t0" } traceSnapshot1

/-- State after the second cycle. -/
def traceState2 : BotState := pollCycle traceState1 traceSnapshot2

/-- State after the third cycle. -/
def traceState3 : BotState := pollCycle traceState2 traceSnapshot3

/-- A concrete stored state for the load-path witness. -/
def demoStoredState : BotState :=
  { seenIds := ["a"], fingerprints := [("a", "ok:")], lastChecked := "t0" }

/-! ### Helper lemmas -/

/-- Right cancellation of the `":" ++ u` suffix of a fingerprint. -/
lemma append_colon_cancel_right (s1 s2 u : String)
    (h : s1 ++ ":" ++ u = s2 ++ ":" ++ u) : s1 = s2 := by
  have hd : (s1.data ++ [':']) ++ u.data = (s2.data ++ [':']) ++ u.data := by
    have := congrArg String.data h
    simpa [String.data_append] using this
  have h2 := List.append_cancel_right (List.append_cancel_right hd)
  cases s1; cases s2; exact congrArg String.mk h2

/-- Left cancellation of the `s ++ ":"` prefix of a fingerprint. -/
lemma append_colon_cancel_left (s u1 u2 : String)
    (h : s ++ ":" ++ u1 = s ++ ":" ++ u2) : u1 = u2 := by
  have hd : (s.data ++ [':']) ++ u1.data = (s.data ++ [':']) ++ u2.data := by
    have := congrArg String.data h
    simpa [String.data_append] using this
  have h2 := List.append_cancel_left hd
  cases u1; cases u2; exact congrArg String.mk h2

/-- A status change with an unchanged latest-update identity changes the
fingerprint. -/
lemma fingerprint_ne_of_status_ne (e1 e2 : StatusEvent)
    (huid : latestUpdateId e1 = latestUpdateId e2) (hst : e1.status ≠ e2.status) :
    getFingerprint e1 ≠ getFingerprint e2 := by
  intro h
  unfold getFingerprint at h
  rw [huid] at h
  exact hst (append_colon_cancel_right _ _ _ h)

/-- A latest-update change with an unchanged status changes the
fingerprint. -/
lemma fingerprint_ne_of_uid_ne (e1 e2 : StatusEvent)
    (hst : e1.status = e2.status) (huid : latestUpdateId e1 ≠ latestUpdateId e2) :
    getFingerprint e1 ≠ getFingerprint e2 := by
  intro h
  unfold getFingerprint at h
  rw [hst] at h
  exact huid (append_colon_cancel_left _ _ _ h)

/-- Every id retained by `saveState` was already a seen id. -/
lemma mem_seenIds_of_mem_saveState (state : BotState) (evs : List ParsedEvent)
    (now : String) (x : String) (h : x ∈ (saveState state evs now).seenIds) :
    x ∈ state.seenIds := by
  simp only [saveState] at h
  rcases List.mem_append.mp h with h | h
  · exact (List.mem_filter.mp h).1
  · exact (List.mem_filter.mp (List.mem_of_mem_drop h)).1

/-- `saveState` prunes `fingerprints` to keys of the retained id list. -/
lemma stateInv_saveState (state : BotState) (evs : List ParsedEvent) (now : String) :
    stateInv (saveState state evs now) := by
  intro p hp
  simp only [saveState, List.mem_filter, decide_eq_true_eq] at hp
  simpa only [saveState] using hp.2

/-- `indexOf` on a list not containing the key is `-1`, whatever the
running index. -/
lemma listIndexOfAux_eq_neg_one (a : String) :
    ∀ (l : List String), a ∉ l → ∀ i, listIndexOfAux l a i = -1 := by
  intro l
  induction l with
  | nil => intro _ _; rfl
  | cons x xs ih =>
    intro h i
    by_cases hx : x = a
    · exact absurd (List.mem_cons.mpr (Or.inl hx.symm)) h
    · simp only [listIndexOfAux, if_neg hx]
      exact ih (fun hm => h (List.mem_cons.mpr (Or.inr hm))) (i + 1)

/-- `l.indexOf(a) = -1` when `a` is absent. -/
lemma listIndexOf_eq_neg_one (a : String) (l : List String) (h : a ∉ l) :
    listIndexOf l a = -1 :=
  listIndexOfAux_eq_neg_one a l h 0

/-- The services test fails exactly when no configured service occurs in
the haystack. -/
lemma serviceFilterPasses_eq_false_iff (event : ParsedEvent) (sub : UserSubscription) :
    serviceFilterPasses event sub = false ↔
      ∀ s ∈ sub.services, strIncludes (eventText event) (lowerStr s) = false := by
  simp [serviceFilterPasses, List.any_eq_false]

/-- The services test succeeds exactly when some configured service occurs
in the haystack. -/
lemma serviceFilterPasses_eq_true_iff (event : ParsedEvent) (sub : UserSubscription) :
    serviceFilterPasses event sub = true ↔
      ∃ s ∈ sub.services, strIncludes (eventText event) (lowerStr s) = true := by
  simp [serviceFilterPasses, List.any_eq_true]

/-! ### Claim theorems -/

/-- Claim C3: for every snapshot event and prior state, the classification
is exactly one of NEW (id not in `seenIds`), UPDATED (id in `seenIds` and
the stored fingerprint differs — including when no fingerprint is stored),
or UNCHANGED (otherwise); moreover an event whose status changed while its
latest update id stayed fixed is classified UPDATED, and in particular the
Scenario D instance (state `seenIds = {"a"}`,
`fingerprints = {"a": "investigating:1"}`, incoming
`id "a", status "resolved", latestUpdateId "1"`) is UPDATED. -/
theorem classification_trichotomy :
    (∀ (state : BotState) (e : ParsedEvent),
      (classify state e = .NEW ↔ e.id ∉ state.seenIds)
      ∧ (classify state e = .UPDATED ↔
          e.id ∈ state.seenIds ∧ getEntry state.fingerprints e.id ≠ some e.fingerprint)
      ∧ (classify state e = .UNCHANGED ↔
          e.id ∈ state.seenIds ∧ getEntry state.fingerprints e.id = some e.fingerprint))
    ∧ (∀ (state : BotState) (eOld eNew : StatusEvent) (et : EventType),
      eNew.id ∈ state.seenIds →
      getEntry state.fingerprints eNew.id = some (getFingerprint eOld) →
      eOld.status ≠ eNew.status →
      latestUpdateId eOld = latestUpdateId eNew →
      classify state (parseEvent eNew et) = .UPDATED)
    ∧ classify scenarioDState scenarioDEvent = .UPDATED := by
  refine ⟨?_, ?_, by decide⟩
  · intro state e
    unfold classify
    split_ifs with h1 h2 <;> simp_all
  · intro state eOld eNew et hmem hfp hst huid
    have hne : getFingerprint eOld ≠ getFingerprint eNew :=
      fingerprint_ne_of_status_ne eOld eNew huid hst
    unfold classify parseEvent
    simp only
    rw [if_pos hmem, if_pos]
    rw [hfp]
    exact fun hcon => hne (Option.some.inj hcon)

/-- Claim C3 witness: the general status-changed conjunct applied at the
Scenario D data. -/
theorem classification_trichotomy_witness :
    classify scenarioDState (parseEvent rawResolvedA EventType.incident) =
      Classification.UPDATED :=
  classification_trichotomy.2.1 scenarioDState rawInvestigatingA rawResolvedA
    EventType.incident (by decide) (by decide) (by decide) (by decide)

/-- Claim C4: after every commit, the number of retained ids that are not
ids of events in the current snapshot is at most 50. -/
theorem retention_bound_after_commit :
    ∀ (state : BotState) (evs : List ParsedEvent) (now : String),
      ((saveState state evs now).seenIds.filter
        (fun id => id ∉ evs.map (·.id))).length ≤ 50 := by
  intro state evs now
  simp only [saveState]
  rw [List.filter_append, List.length_append]
  have h1 : ((state.seenIds.filter (fun id => id ∈ evs.map (·.id))).filter
      (fun id => id ∉ evs.map (·.id))).length = 0 := by
    rw [List.length_eq_zero]
    refine List.filter_eq_nil_iff.mpr ?_
    intro a ha
    have h2 : a ∈ evs.map (·.id) := by
      have := (List.mem_filter.mp ha).2
      simpa using this
    simp [h2]
  have h2 : ((sliceLast 50 (state.seenIds.filter
      (fun id => id ∉ evs.map (·.id)))).filter
      (fun id => id ∉ evs.map (·.id))).length ≤ 50 := by
    refine le_trans (List.length_filter_le _ _) ?_
    simp only [sliceLast, List.length_drop]
    omega
  omega

/-- Claim C5: the fingerprint is the status, the `":"` separator, and the
id of the first element of the update sequence (the empty string when no
updates exist); holding the latest update identity fixed a status change
changes the fingerprint, holding the status fixed a latest-update-identity
change changes the fingerprint, and two events agreeing on both have equal
fingerprints. -/
theorem fingerprint_determinism :
    (∀ e : StatusEvent, e.incident_updates = [] → getFingerprint e = e.status ++ ":" ++ "")
    ∧ (∀ (e : StatusEvent) (u : StatusUpdate) (rest : List StatusUpdate),
        e.incident_updates = u :: rest → getFingerprint e = e.status ++ ":" ++ u.id)
    ∧ (∀ e1 e2 : StatusEvent, latestUpdateId e1 = latestUpdateId e2 →
        e1.status ≠ e2.status → getFingerprint e1 ≠ getFingerprint e2)
    ∧ (∀ e1 e2 : StatusEvent, e1.status = e2.status →
        latestUpdateId e1 ≠ latestUpdateId e2 → getFingerprint e1 ≠ getFingerprint e2)
    ∧ (∀ e1 e2 : StatusEvent, e1.status = e2.status →
        latestUpdateId e1 = latestUpdateId e2 → getFingerprint e1 = getFingerprint e2) := by
  refine ⟨?_, ?_, fingerprint_ne_of_status_ne, fingerprint_ne_of_uid_ne, ?_⟩
  · intro e h
    unfold getFingerprint latestUpdateId
    rw [h]
  · intro e u rest h
    unfold getFingerprint latestUpdateId
    rw [h]
  · intro e1 e2 hst huid
    unfold getFingerprint
    rw [hst, huid]

/-- Claim C5 witness: the fingerprint shape and the three determinism
consequences at concrete raw records. -/
theorem fingerprint_determinism_witness :
    getFingerprint rawNoUpdatesA = rawNoUpdatesA.status ++ ":" ++ ""
    ∧ getFingerprint rawInvestigatingA =
        rawInvestigatingA.status ++ ":" ++ (⟨"1", "investigating", "", ""⟩ : StatusUpdate).id
    ∧ getFingerprint rawInvestigatingA ≠ getFingerprint rawResolvedA
    ∧ getFingerprint rawInvestigatingA ≠ getFingerprint rawSecondUpdateA
    ∧ getFingerprint rawInvestigatingA = getFingerprint rawRenamedA :=
  ⟨fingerprint_determinism.1 rawNoUpdatesA (by decide),
   fingerprint_determinism.2.1 rawInvestigatingA ⟨"1", "investigating", "", ""⟩ [] (by decide),
   fingerprint_determinism.2.2.1 rawInvestigatingA rawResolvedA (by decide) (by decide),
   fingerprint_determinism.2.2.2.1 rawInvestigatingA rawSecondUpdateA (by decide) (by decide),
   fingerprint_determinism.2.2.2.2 rawInvestigatingA rawRenamedA (by decide) (by decide)⟩

/-- Claim C9: a feed sub-fetch that fails — a non-OK HTTP response or a
thrown error — contributes the empty event list to the cycle's snapshot;
the `catch` path of the model makes an error escaping the fetch
impossible by construction. -/
theorem failed_subfetch_contributes_empty :
    ∀ (et : EventType) (o : FetchOutcome),
      ((∃ status, o = .httpError status) ∨ o = .thrown) → fetchFromUrl et o = [] := by
  rintro et o (⟨status, rfl⟩ | rfl) <;> rfl

/-- Claim C9 witness: a concrete HTTP failure and a concrete thrown error
both contribute nothing. -/
theorem failed_subfetch_contributes_empty_witness :
    fetchFromUrl EventType.incident (FetchOutcome.httpError 500) = []
    ∧ fetchFromUrl EventType.maintenance FetchOutcome.thrown = [] :=
  ⟨failed_subfetch_contributes_empty EventType.incident (FetchOutcome.httpError 500)
      (Or.inl ⟨500, rfl⟩),
   failed_subfetch_contributes_empty EventType.maintenance FetchOutcome.thrown (Or.inr rfl)⟩

/-- Claim C10: an incident whose impact string is outside the known
impact table, matched against a subscription whose floor is not `"none"`,
is rejected: the unknown impact indexes to `-1` and ranks below every
non-`"none"` threshold. -/
theorem unknown_impact_fails_nonzero_floor :
    ∀ (e : ParsedEvent) (sub : UserSubscription),
      e.eventType = .incident →
      e.impact ∉ IMPACT_LEVELS →
      sub.minImpact ∈ ["minor", "major", "critical"] →
      eventMatchesSubscription e sub = false := by
  intro e sub htype himp hmin
  have hidx : listIndexOf IMPACT_LEVELS e.impact = -1 :=
    listIndexOf_eq_neg_one e.impact IMPACT_LEVELS himp
  have hminidx : (1 : Int) ≤ listIndexOf IMPACT_LEVELS sub.minImpact := by
    simp only [List.mem_cons, List.not_mem_nil, or_false] at hmin
    rcases hmin with h | h | h <;> rw [h] <;> decide
  have hne : sub.minImpact ≠ "none" := by
    intro hcon
    rw [hcon] at hminidx
    exact absurd hminidx (by decide)
  have hlt : listIndexOf IMPACT_LEVELS e.impact < listIndexOf IMPACT_LEVELS sub.minImpact := by
    rw [hidx]; omega
  unfold eventMatchesSubscription
  split_ifs with h1 h2 h3 h4 <;>
    first
      | rfl
      | exact absurd ⟨htype, hne, hlt⟩ h3

/-- Claim C10 witness: impact `"catastrophic"` against floor `"major"`. -/
theorem unknown_impact_fails_nonzero_floor_witness :
    eventMatchesSubscription unknownImpactEvent majorFloorSub = false :=
  unknown_impact_fails_nonzero_floor unknownImpactEvent majorFloorSub rfl
    (by decide) (by decide)

/-- Claim C6: the matcher is conjunctive across its dimensions — it
returns false whenever the event-type filter excludes the event's kind,
or the event is an incident ranking below a non-`"none"` impact floor, or
`services` is non-empty with no substring hit in the haystack, regardless
of the other dimensions; and when every other dimension passes, a single
matching service substring suffices for a match. -/
theorem matcher_conjunctive_dimensions :
    ∀ (e : ParsedEvent) (sub : UserSubscription),
      (((sub.eventTypes = "incidents" ∧ e.eventType = .maintenance)
        ∨ (sub.eventTypes = "maintenance" ∧ e.eventType = .incident)
        ∨ (e.eventType = .incident ∧ sub.minImpact ≠ "none" ∧
            listIndexOf IMPACT_LEVELS e.impact < listIndexOf IMPACT_LEVELS sub.minImpact)
        ∨ (sub.services ≠ [] ∧
            ∀ s ∈ sub.services, strIncludes (eventText e) (lowerStr s) = false)) →
        eventMatchesSubscription e sub = false)
      ∧ (¬(sub.eventTypes = "incidents" ∧ e.eventType = .maintenance) →
         ¬(sub.eventTypes = "maintenance" ∧ e.eventType = .incident) →
         ¬(e.eventType = .incident ∧ sub.minImpact ≠ "none" ∧
            listIndexOf IMPACT_LEVELS e.impact < listIndexOf IMPACT_LEVELS sub.minImpact) →
         (∃ s ∈ sub.services, strIncludes (eventText e) (lowerStr s) = true) →
         eventMatchesSubscription e sub = true) := by
  intro e sub
  constructor
  · intro hfail
    unfold eventMatchesSubscription
    split_ifs with h1 h2 h3 h4
    · rfl
    · rfl
    · rfl
    · rfl
    · rcases hfail with h | h | h | h
      · exact absurd h h1
      · exact absurd h h2
      · exact absurd h h3
      · exact absurd ⟨h.1, (serviceFilterPasses_eq_false_iff e sub).mpr h.2⟩ h4
  · intro h1 h2 h3 hex
    unfold eventMatchesSubscription
    split_ifs with g1
    · have := (serviceFilterPasses_eq_true_iff e sub).mpr hex
      rw [this] at g1
      exact absurd g1.2 (by decide)
    · rfl

/-- Claim C6 witness: a maintenance event against an incidents-only
subscription fails on the type dimension alone; the Scenario C pair
succeeds through a single service substring with all other dimensions
passing. -/
theorem matcher_conjunctive_dimensions_witness :
    eventMatchesSubscription maintenanceEvent incidentsOnlySub = false
    ∧ eventMatchesSubscription scenarioCEvent scenarioCSub = true :=
  ⟨(matcher_conjunctive_dimensions maintenanceEvent incidentsOnlySub).1
      (Or.inl ⟨rfl, rfl⟩),
   (matcher_conjunctive_dimensions scenarioCEvent scenarioCSub).2
      (by decide) (by decide) (by decide) ⟨"fortnite", by decide, by decide⟩⟩

/-- Claim C7: with non-empty `serviceFilters` the service step succeeds
iff some filter, lowercased, is a substring of the lowercased haystack of
event title plus component names joined by whitespace; the Scenario C
event (`"Fortnite Login Issues"`, no components) matches the
`["fortnite"]` subscription via its title alone. -/
theorem service_filter_substring_semantics :
    (∀ (e : ParsedEvent) (sub : UserSubscription), sub.services ≠ [] →
      (serviceFilterPasses e sub = true ↔
        ∃ s ∈ sub.services, strIncludes (eventText e) (lowerStr s) = true))
    ∧ scenarioCEvent.components = []
    ∧ eventMatchesSubscription scenarioCEvent scenarioCSub = true := by
  refine ⟨fun e sub _ => serviceFilterPasses_eq_true_iff e sub, rfl, by decide⟩

/-- Claim C7 witness: the iff applied at the Scenario C pair. -/
theorem service_filter_substring_semantics_witness :
    serviceFilterPasses scenarioCEvent scenarioCSub = true :=
  (service_filter_substring_semantics.1 scenarioCEvent scenarioCSub (by decide)).mpr
    ⟨"fortnite", by decide, by decide⟩

/-- Claim C8: the domain of `fingerprints` stays inside `seenIds` for the
empty default produced by loading, for any load of a stored state that
satisfied it, for every commit, and for every whole poll cycle. -/
theorem fingerprints_domain_subset_seenIds :
    (∀ now, stateInv (loadState none now))
    ∧ (∀ (data : Option BotState) (now : String),
        (∀ s, data = some s → stateInv s) → stateInv (loadState data now))
    ∧ (∀ state evs now, stateInv (saveState state evs now))
    ∧ (∀ state evs subs now, stateInv (pollAndNotify state evs subs now)) := by
  refine ⟨?_, ?_, stateInv_saveState, ?_⟩
  · intro now p hp
    simp [loadState] at hp
  · intro data now h
    cases data with
    | none => intro p hp; simp [loadState] at hp
    | some s => exact h s rfl
  · intro state evs subs now
    unfold pollAndNotify
    split
    · exact stateInv_saveState _ _ _
    · exact stateInv_saveState _ _ _

/-- Claim C8 witness: loading a concrete stored state that satisfies the
invariant yields a state satisfying it. -/
theorem fingerprints_domain_subset_seenIds_witness :
    stateInv (loadState (some demoStoredState) "t2") :=
  fingerprints_domain_subset_seenIds.2.1 (some demoStoredState) "t2"
    (fun s h => by cases h; intro p hp; fin_cases hp; decide)

/-- Claim C1 counterexample: a cycle with zero subscribers and one
never-seen event `"a"` in the snapshot does not add `"a"` to `seenIds`
and records no fingerprint for it — the zero-subscriber early return
skips the classification loop, so state does not advance to match the
snapshot. -/
theorem zero_subscriber_cycle_cex :
    "a" ∉ (pollAndNotify { seenIds := [], fingerprints := [], lastChecked := "t0" }
        [simpleEvent "a" "ok"] [] "t1").seenIds
    ∧ getEntry (pollAndNotify { seenIds := [], fingerprints := [], lastChecked := "t0" }
        [simpleEvent "a" "ok"] [] "t1").fingerprints "a" = none := by
  decide

/-- Claim C1 (amended): a poll cycle with zero subscribers skips the
classification loop and only commits — the resulting state is exactly
`saveState` of the unchanged loaded state, so it is pruned against the
snapshot but never gains the id or fingerprint of an unseen event. -/
theorem zero_subscriber_cycle_only_commits :
    ∀ (state : BotState) (evs : List ParsedEvent) (now : String),
      pollAndNotify state evs [] now = saveState state evs now
      ∧ ∀ e ∈ evs, e.id ∉ state.seenIds →
          e.id ∉ (pollAndNotify state evs [] now).seenIds := by
  intro state evs now
  constructor
  · rfl
  · intro e _ hid hmem
    rw [(by rfl : pollAndNotify state evs [] now = saveState state evs now)] at hmem
    exact hid (mem_seenIds_of_mem_saveState state evs now e.id hmem)

/-- Claim C1 witness: the amended statement applied at the concrete
zero-subscriber cycle. -/
theorem zero_subscriber_cycle_only_commits_witness :
    pollAndNotify { seenIds := [], fingerprints := [], lastChecked := "t0" }
        [simpleEvent "a" "ok"] [] "t1" =
      saveState { seenIds := [], fingerprints := [], lastChecked := "t0" }
        [simpleEvent "a" "ok"] "t1"
    ∧ (simpleEvent "a" "ok").id ∉
        (pollAndNotify { seenIds := [], fingerprints := [], lastChecked := "t0" }
          [simpleEvent "a" "ok"] [] "t1").seenIds :=
  ⟨(zero_subscriber_cycle_only_commits
      { seenIds := [], fingerprints := [], lastChecked := "t0" }
      [simpleEvent "a" "ok"] "t1").1,
   (zero_subscriber_cycle_only_commits
      { seenIds := [], fingerprints := [], lastChecked := "t0" }
      [simpleEvent "a" "ok"] "t1").2
      (simpleEvent "a" "ok") (by decide) (by decide)⟩

set_option maxRecDepth 100000 in
/-- Claim C2 counterexample: in the three-cycle trace, `b0` is seen in
cycle 1 and disappears from the feed at cycle 2, while `a` is still
present in cycle 2 and disappears only at cycle 3 — so at the third
commit `a` is the single most recently disappeared id among 51 absent
ids.  The code nevertheless drops `a` and retains `b0`: `slice(-50)` on
the stored order keeps the 50 ids that disappeared least recently. -/
theorem retention_recency_cex :
    ("b0" ∈ traceState1.seenIds ∧ "b0" ∉ traceSnapshot2.map (·.id))
    ∧ ("a" ∈ traceState2.seenIds ∧ "a" ∈ traceSnapshot2.map (·.id)
        ∧ "a" ∉ traceSnapshot3.map (·.id))
    ∧ "a" ∉ traceState3.seenIds
    ∧ "b0" ∈ traceState3.seenIds := by
  decide

/-- Claim C2 (amended): on each commit an id is retained in `seenIds` iff
it was already seen and appears in the current snapshot, or it is among
the last 50 entries, in stored order, of the seen ids absent from the
snapshot; the commit rebuilds `seenIds` with the present ids first, so
the stored order places newly disappeared ids ahead of older ones and the
kept tail favors the least recently disappeared. -/
theorem retention_membership_after_commit :
    ∀ (state : BotState) (evs : List ParsedEvent) (now : String),
      (saveState state evs now).seenIds =
        state.seenIds.filter (fun id => id ∈ evs.map (·.id)) ++
          sliceLast 50 (state.seenIds.filter (fun id => id ∉ evs.map (·.id)))
      ∧ ∀ id, id ∈ (saveState state evs now).seenIds ↔
          ((id ∈ state.seenIds ∧ id ∈ evs.map (·.id))
            ∨ id ∈ sliceLast 50 (state.seenIds.filter (fun id => id ∉ evs.map (·.id)))) := by
  intro state evs now
  refine ⟨rfl, ?_⟩
  intro id
  simp [saveState, List.mem_append, List.mem_filter]
